import Mathlib

/-!
Shallow embedding of the simplified trading bot's core logic:
the per-symbol validator, the grid price-ladder generator, the
sequential dispatcher, the dual-mode order executor and the stream
session lifecycle.  Numeric values are modelled as exact rationals;
JavaScript's NaN is modelled by `Option ℚ` (`none` = NaN), and the
semantics of JS comparisons against NaN (always false) is embedded
explicitly.
-/

/-- Order side, from `types.ts`. -/
inductive OrderSide where
  | BUY
  | SELL
deriving DecidableEq

/-- Order type, from `types.ts`. -/
inductive OrderType where
  | MARKET
  | LIMIT
  | STOP_LIMIT
deriving DecidableEq

/-- `OrderRequest`, from `types.ts`.  Optional fields are `Option String`
(`none` = the field is absent / `undefined`). -/
structure OrderRequest where
  symbol : String
  side : OrderSide
  type : OrderType
  quantity : String
  price : Option String := none
  stopPrice : Option String := none
  timeInForce : Option String := none
deriving DecidableEq

/-- `ApiCredentials`, from `types.ts`. -/
structure ApiCredentials where
  apiKey : String
  apiSecret : String
deriving DecidableEq

/-- Per-symbol trading rules (`SymbolRules` in the validator module). -/
structure SymbolRules where
  minQty : ℚ
  priceDecimals : ℕ
  qtyDecimals : ℕ
deriving DecidableEq

/-- JS `String.toUpperCase` for the ASCII symbol names this program uses. -/
def jsToUpper (s : String) : String :=
  ⟨s.data.map Char.toUpper⟩

/-- The hardcoded `TRADING_RULES` table with its `DEFAULT` fallback,
looked up case-insensitively (`getSymbolRules` in the validator module). -/
def getSymbolRules (symbol : String) : SymbolRules :=
  let s := jsToUpper symbol
  if s = "BTCUSDT" then ⟨1/1000, 1, 3⟩
  else if s = "ETHUSDT" then ⟨1/100, 2, 3⟩
  else if s = "BNBUSDT" then ⟨1/100, 2, 2⟩
  else if s = "SOLUSDT" then ⟨1, 3, 0⟩
  else if s = "XRPUSDT" then ⟨1/10, 4, 1⟩
  else if s = "ADAUSDT" then ⟨1, 4, 0⟩
  else if s = "DOGEUSDT" then ⟨1, 5, 0⟩
  else ⟨1/1000, 2, 3⟩

/-- Numeric value of a list of decimal digit characters. -/
def digitsToNat (ds : List Char) : ℕ :=
  ds.foldl (fun acc c => 10 * acc + (c.toNat - 48)) 0

/-- Sign, integer part, fractional part and fractional length of a decimal
literal, or `none` when no digits are parseable (JS NaN). -/
def parseFloatRep (s : String) : Option (Bool × ℕ × ℕ × ℕ) :=
  let cs := s.data
  let (neg, cs') :=
    match cs with
    | '-' :: rest => (true, rest)
    | '+' :: rest => (false, rest)
    | _ => (false, cs)
  let ip := cs'.takeWhile Char.isDigit
  let rest := cs'.dropWhile Char.isDigit
  let fp :=
    match rest with
    | '.' :: r => r.takeWhile Char.isDigit
    | _ => []
  if ip = [] ∧ fp = [] then none
  else some (neg, digitsToNat ip, digitsToNat fp, fp.length)

/-- Exact rational value of a parsed decimal literal. -/
def ratOfRep : Bool × ℕ × ℕ × ℕ → ℚ
  | (neg, ip, fp, fl) =>
    let v : ℚ := (ip : ℚ) + (fp : ℚ) / 10 ^ fl
    if neg then -v else v

/-- Model of JavaScript `parseFloat`: parses an optional sign followed by
a decimal literal prefix; `none` models NaN (no digits parseable).
Exponents and special literals are not used by this program's inputs. -/
def parseFloat (s : String) : Option ℚ :=
  (parseFloatRep s).map ratOfRep

/-- `countDecimals` from the validator module: textual count of the
characters after the first decimal point (`split('.')[1].length`),
0 when there is no point. -/
def countDecimals (s : String) : ℕ :=
  match s.data.splitOn '.' with
  | _ :: second :: _ => second.length
  | _ => 0

/-- JS `x < y` where either operand may be NaN: false if either is NaN. -/
def jsLt (a b : Option ℚ) : Bool :=
  match a, b with
  | some x, some y => x < y
  | _, _ => false

/-- JS `x <= y` where either operand may be NaN: false if either is NaN. -/
def jsLe (a b : Option ℚ) : Bool :=
  match a, b with
  | some x, some y => x ≤ y
  | _, _ => false

/-- JS `x >= y` where either operand may be NaN: false if either is NaN. -/
def jsGe (a b : Option ℚ) : Bool :=
  match a, b with
  | some x, some y => y ≤ x
  | _, _ => false

/-- `validateOrderInput` from the validator module, check for check. -/
def validateOrderInput (order : OrderRequest) : Option String :=
  let rules := getSymbolRules order.symbol
  if order.quantity = "" ∨ (parseFloat order.quantity).isNone then
    some "Quantity is required and must be a number."
  else if jsLt (parseFloat order.quantity) (some rules.minQty) then
    some "Quantity is below the minimum allowed."
  else if countDecimals order.quantity > rules.qtyDecimals then
    some "Quantity precision too high."
  else if order.type = OrderType.LIMIT ∨ order.type = OrderType.STOP_LIMIT then
    if (parseFloat (order.price.getD "")).isNone then
      some "Price is required for Limit/Stop-Limit orders."
    else if jsLe (parseFloat (order.price.getD "")) (some 0) then
      some "Price must be greater than 0."
    else if countDecimals (order.price.getD "") > rules.priceDecimals then
      some "Price precision too high."
    else if order.type = OrderType.STOP_LIMIT then
      if (order.stopPrice.getD "").isEmpty ∨ (parseFloat (order.stopPrice.getD "")).isNone then
        some "Stop Price is required for Stop-Limit orders."
      else if jsLe (parseFloat (order.stopPrice.getD "")) (some 0) then
        some "Stop Price must be greater than 0."
      else if countDecimals (order.stopPrice.getD "") > rules.priceDecimals then
        some "Stop Price precision too high."
      else none
    else none
  else none

/-- `validateGridInput` from the validator module, check for check.
Note: the quantity check compares `parseFloat(quantity) < minQty`
without a preceding `isNaN` guard. -/
def validateGridInput (symbol minPrice maxPrice quantity : String) : Option String :=
  let rules := getSymbolRules symbol
  if minPrice = "" ∨ maxPrice = "" then
    some "Min and Max prices are required."
  else if jsGe (parseFloat minPrice) (parseFloat maxPrice) then
    some "Min Price must be lower than Max Price."
  else if jsLe (parseFloat minPrice) (some 0) then
    some "Min Price must be positive."
  else if countDecimals minPrice > rules.priceDecimals then
    some "Min Price precision too high."
  else if countDecimals maxPrice > rules.priceDecimals then
    some "Max Price precision too high."
  else if quantity = "" then
    some "Quantity per grid is required."
  else if jsLt (parseFloat quantity) (some rules.minQty) then
    some "Grid quantity below minimum."
  else if countDecimals quantity > rules.qtyDecimals then
    some "Quantity precision too high."
  else none

example : parseFloatRep "90000" = some (false, 90000, 0, 0) := by decide
example : parseFloatRep "abc" = none := by decide
example : parseFloatRep "0.001" = some (false, 0, 1, 3) := by decide
example : parseFloat "90000" = some 90000 := by
  simp [parseFloat, ratOfRep, show parseFloatRep "90000" = some (false, 90000, 0, 0) from by decide]
example : countDecimals "100.25" = 2 := by decide
example : getSymbolRules "BTCUSDT" = ⟨1/1000, 1, 3⟩ := by rfl
example : validateGridInput "BTCUSDT" "90000" "100000" "abc" = none := by
  simp [validateGridInput, parseFloat, ratOfRep, jsGe, jsLe, jsLt,
    show parseFloatRep "90000" = some (false, 90000, 0, 0) from by decide,
    show parseFloatRep "100000" = some (false, 100000, 0, 0) from by decide,
    show parseFloatRep "abc" = none from by decide,
    show countDecimals "90000" = 0 from by decide,
    show countDecimals "100000" = 0 from by decide,
    show countDecimals "abc" = 0 from by decide,
    show getSymbolRules "BTCUSDT" = ⟨1/1000, 1, 3⟩ from by rfl]
  norm_num

/-- JS `Number.prototype.toFixed(d)` on a nonnegative value, as exact
rounding to `d` decimal places: nearest multiple of `10 ^ (-d)`, ties away
from zero (the ECMAScript "pick the larger n" rule). -/
def roundToDec (d : ℕ) (x : ℚ) : ℚ :=
  (⌊x * 10 ^ d + 1 / 2⌋ : ℚ) / 10 ^ d

/-- One order of a generated grid (`orders.push({...})` in
`GridForm.generateGrid`); the formatted price string is modelled by its
exact rounded value. -/
structure GridOrder where
  symbol : String
  side : OrderSide
  type : OrderType
  quantity : String
  price : ℚ
  timeInForce : String
deriving DecidableEq

/-- The raw level for index `i` of the ladder:
`min + i * (max - min) / (count - 1)`. -/
def gridLevel (minP maxP : ℚ) (count : ℕ) (i : ℕ) : ℚ :=
  minP + (i : ℚ) * ((maxP - minP) / ((count : ℚ) - 1))

/-- The grid ladder loop of `GridForm.generateGrid`: levels whose raw
price is within one price-precision unit of the reference are skipped
(`continue`); the rest become LIMIT orders, BUY strictly below the
reference and SELL otherwise, with the price formatted to the symbol's
price precision. -/
def generateGrid (minP maxP : ℚ) (count : ℕ) (ref : ℚ) (qty symbol : String) :
    List GridOrder :=
  let rules := getSymbolRules symbol
  ((List.range count).filter fun i =>
      !(|gridLevel minP maxP count i - ref| < 1 / 10 ^ rules.priceDecimals : Bool)).map
    fun i =>
      { symbol := symbol
        side := if gridLevel minP maxP count i < ref then OrderSide.BUY else OrderSide.SELL
        type := OrderType.LIMIT
        quantity := qty
        price := roundToDec rules.priceDecimals (gridLevel minP maxP count i)
        timeInForce := "GTC" }

/-- Number of raw levels that land within one price-precision unit of the
reference price (the levels the generator drops). -/
def droppedLevels (minP maxP : ℚ) (count : ℕ) (ref : ℚ) (d : ℕ) : ℕ :=
  ((List.range count).filter fun i =>
      (|gridLevel minP maxP count i - ref| < 1 / 10 ^ d : Bool)).length

/-- One observable step of the sequential grid dispatcher
(`handleGridSubmit` in the application module). -/
inductive DispatchEvent where
  | attempt (idx : ℕ) (ok : Bool)
  | delay (ms : ℕ)
deriving DecidableEq

/-- The dispatcher loop body starting at order index `i`: each order is
attempted; a successful submission is followed by the fixed 200 ms wait,
a failed one is not (the `await`ed delay sits inside the `try` block,
after the success log). -/
def dispatchAux (i : ℕ) : List Bool → List DispatchEvent
  | [] => []
  | ok :: rest =>
    if ok then
      DispatchEvent.attempt i true :: DispatchEvent.delay 200 :: dispatchAux (i + 1) rest
    else
      DispatchEvent.attempt i false :: dispatchAux (i + 1) rest

/-- Observable event trace of `handleGridSubmit` over a batch whose k-th
submission succeeds iff `outcomes[k]`. -/
def dispatchTrace (outcomes : List Bool) : List DispatchEvent :=
  dispatchAux 0 outcomes

/-- `successCount` accumulated by the dispatcher loop. -/
def successCount (outcomes : List Bool) : ℕ :=
  outcomes.countP (· = true)

/-- `failCount` accumulated by the dispatcher loop. -/
def failCount (outcomes : List Bool) : ℕ :=
  outcomes.countP (· = false)

/-- The order indices attempted, in trace order. -/
def attemptIndices : List DispatchEvent → List ℕ
  | [] => []
  | DispatchEvent.attempt i _ :: rest => i :: attemptIndices rest
  | DispatchEvent.delay _ :: rest => attemptIndices rest

/-- Is this event the submission attempt for order index `k`? -/
def isAttemptFor (k : ℕ) : DispatchEvent → Bool
  | DispatchEvent.attempt i _ => i = k
  | _ => false

/-- The events strictly between the attempt for order `k` and the attempt
for order `k + 1` in a dispatcher trace. -/
def betweenAttempts (tr : List DispatchEvent) (k : ℕ) : List DispatchEvent :=
  (((tr.dropWhile fun e => !isAttemptFor k e).drop 1).takeWhile
    fun e => !isAttemptFor (k + 1) e)

example : dispatchTrace [false, true] =
    [.attempt 0 false, .attempt 1 true, .delay 200] := by decide
example : betweenAttempts (dispatchTrace [false, true]) 0 = [] := by decide
example : betweenAttempts (dispatchTrace [true, true]) 0 = [.delay 200] := by decide

/-- `BinanceOrderResponse`, from `types.ts`. -/
structure BinanceOrderResponse where
  orderId : ℕ
  symbol : String
  status : String
  clientOrderId : String
  price : String
  avgPrice : String
  origQty : String
  executedQty : String
  cumQuote : String
  timeInForce : String
  type : OrderType
  side : OrderSide
  stopPrice : String
  workingType : String
  priceProtect : Bool
  origType : OrderType
  updateTime : ℕ
deriving DecidableEq

/-- JS `x || dflt` on an optional string: the default replaces a missing
or empty (falsy) value. -/
def jsOrElse (x : Option String) (dflt : String) : String :=
  match x with
  | some s => if s = "" then dflt else s
  | none => dflt

/-- The fixed artificial delay of the simulated submit path (ms). -/
def mockPlaceOrderDelayMs : ℕ := 800

/-- The `success` flag hardcoded in `mockPlaceOrder`. -/
def mockSuccess : Bool := true

/-- `mockPlaceOrder` from `services/api.ts`: `randId` stands for
`Math.floor(Math.random() * 1000000000)` and `now` for `Date.now()`. -/
def mockPlaceOrder (order : OrderRequest) (randId now : ℕ) :
    Except String BinanceOrderResponse :=
  if mockSuccess then
    Except.ok
      { orderId := randId
        symbol := jsToUpper order.symbol
        status := "NEW"
        clientOrderId := "web_" ++ toString now
        price := jsOrElse order.price "0"
        avgPrice := "0.00000"
        origQty := order.quantity
        executedQty := "0"
        cumQuote := "0"
        timeInForce := "GTC"
        type := order.type
        side := order.side
        stopPrice := jsOrElse order.stopPrice "0"
        workingType := "CONTRACT_PRICE"
        priceProtect := false
        origType := order.type
        updateTime := now }
  else
    Except.error "Simulated network error or insufficient balance"

/-- Does this string match `/^\d+$/` (the purely-numeric heuristic of the
cancel path)? -/
def isAllDigits (s : String) : Bool :=
  s ≠ "" ∧ s.data.all Char.isDigit

/-- `mockCancelOrder` from `services/api.ts`. -/
def mockCancelOrder (symbol orderId : String) (randId now : ℕ) :
    Except String (String × ℕ × String × String) :=
  Except.ok
    ( jsToUpper symbol
    , if isAllDigits orderId then (digitsToNat orderId.data) else randId
    , (if isAllDigits orderId then "web_" ++ toString now else orderId)
    , "CANCELED" )

/-- The string form of an order side, as serialized into the query. -/
def sideString : OrderSide → String
  | OrderSide.BUY => "BUY"
  | OrderSide.SELL => "SELL"

/-- `key=value` pairs joined with `&`, in list order — the JS
`Object.keys(params).map(key => key + "=" + params[key]).join("&")`, with
the key list in insertion order per the ECMAScript own-property order for
the non-numeric keys this program uses. -/
def toQueryString : List (String × String) → String
  | [] => ""
  | [p] => p.1 ++ "=" ++ p.2
  | p :: rest => p.1 ++ "=" ++ p.2 ++ "&" ++ toQueryString rest

/-- The parameters inserted before the type-dependent block of
`realPlaceOrder`, in insertion order. -/
def baseOrderParams (order : OrderRequest) (ts : ℕ) : List (String × String) :=
  [ ("symbol", jsToUpper order.symbol)
  , ("side", sideString order.side)
  , ("quantity", order.quantity)
  , ("timestamp", toString ts)
  , ("recvWindow", "5000") ]

/-- The type-dependent parameters of `realPlaceOrder`, in insertion order;
a missing (falsy) price or stop price throws before signing. -/
def orderTypeParams (order : OrderRequest) : Except String (List (String × String)) :=
  match order.type with
  | OrderType.MARKET => Except.ok [("type", "MARKET")]
  | OrderType.LIMIT =>
    if jsOrElse order.price "" = "" then
      Except.error "Price is required for LIMIT orders"
    else
      Except.ok [("type", "LIMIT"), ("price", order.price.getD ""), ("timeInForce", "GTC")]
  | OrderType.STOP_LIMIT =>
    if jsOrElse order.price "" = "" then
      Except.error "Price is required for STOP_LIMIT orders"
    else if jsOrElse order.stopPrice "" = "" then
      Except.error "Stop Price is required for STOP_LIMIT orders"
    else
      Except.ok [("type", "STOP"), ("price", order.price.getD "")
        , ("stopPrice", order.stopPrice.getD ""), ("timeInForce", "GTC")]

/-- The HTTP request a live-mode call would issue: everything the code
hands to `fetch` before the network takes over. -/
structure IssuedRequest where
  method : String
  path : String
  query : String
  apiKeyHeader : String
deriving DecidableEq

/-- `realPlaceOrder` from `services/api.ts`, up to the point the request
is issued; `sign` abstracts `hmacSha256` and `ts` stands for `Date.now()`.
An `Except.error` means the function throws before any request exists. -/
def realPlaceOrder (order : OrderRequest) (creds : ApiCredentials) (ts : ℕ)
    (sign : String → String → String) : Except String IssuedRequest :=
  if creds.apiKey = "" ∨ creds.apiSecret = "" then
    Except.error "API Credentials missing"
  else
    match orderTypeParams order with
    | Except.error e => Except.error e
    | Except.ok tps =>
      let queryString := toQueryString (baseOrderParams order ts ++ tps)
      let signature := sign creds.apiSecret queryString
      Except.ok
        { method := "POST"
          path := "/fapi/v1/order"
          query := queryString ++ "&signature=" ++ signature
          apiKeyHeader := creds.apiKey }

/-- `realCancelOrder` from `services/api.ts`, up to the issued request. -/
def realCancelOrder (symbol orderId : String) (creds : ApiCredentials) (ts : ℕ)
    (sign : String → String → String) : Except String IssuedRequest :=
  if creds.apiKey = "" ∨ creds.apiSecret = "" then
    Except.error "API Credentials missing"
  else
    let params := [("symbol", jsToUpper symbol), ("timestamp", toString ts)
      , ("recvWindow", "5000")]
      ++ (if isAllDigits orderId then [("orderId", orderId)]
          else [("origClientOrderId", orderId)])
    let queryString := toQueryString params
    let signature := sign creds.apiSecret queryString
    Except.ok
      { method := "DELETE"
        path := "/fapi/v1/order"
        query := queryString ++ "&signature=" ++ signature
        apiKeyHeader := creds.apiKey }

/-- `placeOrder` from `services/api.ts`: the demo flag selects the mock
path, which never consults the credentials. -/
def placeOrder (isDemo : Bool) (order : OrderRequest) (creds : ApiCredentials)
    (randId now ts : ℕ) (sign : String → String → String) :
    Except String (BinanceOrderResponse ⊕ IssuedRequest) :=
  if isDemo then
    (mockPlaceOrder order randId now).map Sum.inl
  else
    (realPlaceOrder order creds ts sign).map Sum.inr

/-- `cancelOrder` from `services/api.ts`. -/
def cancelOrder (isDemo : Bool) (symbol orderId : String) (creds : ApiCredentials)
    (randId now ts : ℕ) (sign : String → String → String) :
    Except String ((String × ℕ × String × String) ⊕ IssuedRequest) :=
  if isDemo then
    (mockCancelOrder symbol orderId randId now).map Sum.inl
  else
    (realCancelOrder symbol orderId creds ts sign).map Sum.inr

/-- The fixed stream reconnection delay (`RECONNECT_DELAY`), ms. -/
def RECONNECT_DELAY : ℕ := 3000

/-- State of one stream session (`subscribeToTicker` /
`subscribeToUserData` both close over exactly this state): the `active`
flag, the pending reconnection timer (holding its delay), whether a socket
handle exists, and how many connection attempts have been made. -/
structure StreamSession where
  active : Bool
  timer : Option ℕ
  socket : Bool
  attempts : ℕ
deriving DecidableEq

/-- The external events a session reacts to. -/
inductive StreamEvent where
  | socketClose
  | timerFire
  | unsubscribe
deriving DecidableEq

/-- `connect()` of a stream session: bails out when the session is no
longer active, otherwise opens a socket (one more connection attempt). -/
def connect (s : StreamSession) : StreamSession :=
  if s.active then { s with socket := true, attempts := s.attempts + 1 } else s

/-- One step of the session state machine: `onclose` schedules the
reconnection timer only while `active`; a firing timer runs `connect`;
the cleanup function clears `active`, cancels the timer and closes the
socket. -/
def streamStep (s : StreamSession) : StreamEvent → StreamSession
  | StreamEvent.socketClose =>
    if s.active then { s with socket := false, timer := some RECONNECT_DELAY }
    else { s with socket := false }
  | StreamEvent.timerFire =>
    match s.timer with
    | some _ => connect { s with timer := none }
    | none => s
  | StreamEvent.unsubscribe => { s with active := false, timer := none, socket := false }

/-! ## Helper lemmas -/

theorem length_filter_add_length_filter_not (l : List α) (p : α → Bool) :
    (l.filter p).length + (l.filter fun a => !p a).length = l.length := by
  induction l with
  | nil => simp
  | cons a l ih =>
    cases h : p a <;> simp [List.filter_cons, h, ← ih] <;> omega

theorem attemptIndices_dispatchAux (outcomes : List Bool) :
    ∀ i : ℕ, attemptIndices (dispatchAux i outcomes) = List.range' i outcomes.length := by
  induction outcomes with
  | nil => intro i; simp [dispatchAux, attemptIndices]
  | cons o rest ih =>
    intro i
    cases o <;> simp [dispatchAux, attemptIndices, ih, List.range'_succ]

theorem countP_true_add_countP_false (l : List Bool) :
    l.countP (· = true) + l.countP (· = false) = l.length := by
  induction l with
  | nil => simp
  | cons b l ih => cases b <;> simp [List.countP_cons, ← ih] <;> omega

/-- C4: for every batch, whatever subset of submissions fails, the counters
sum to the batch size and every order is attempted exactly once, strictly in
input order; a failure never aborts the remaining batch. -/
theorem dispatch_attempts_all_in_order (outcomes : List Bool) :
    successCount outcomes + failCount outcomes = outcomes.length ∧
    attemptIndices (dispatchTrace outcomes) = List.range outcomes.length := by
  refine ⟨countP_true_add_countP_false outcomes, ?_⟩
  rw [dispatchTrace, attemptIndices_dispatchAux, List.range_eq_range']

/-- C2 counterexample: in the batch whose first submission fails, no delay
event occurs between the first and the second attempt, refuting the claim
that the 200 ms delay is honored between every pair of consecutive attempts
regardless of outcome. -/
theorem dispatch_delay_missing_after_failure :
    ¬ (∀ k, k + 1 < ([false, true] : List Bool).length →
        DispatchEvent.delay 200 ∈ betweenAttempts (dispatchTrace [false, true]) k) := by
  intro h
  exact absurd (h 0 (by decide)) (by decide)

theorem betweenAttempts_dispatchAux (outcomes : List Bool) :
    ∀ i k : ℕ, i ≤ k → k + 1 < i + outcomes.length →
    betweenAttempts (dispatchAux i outcomes) k =
      if outcomes.getD (k - i) false = true then [DispatchEvent.delay 200] else [] := by
  induction outcomes with
  | nil => intro i k hik hlt; simp at hlt; omega
  | cons o rest ih =>
    intro i k hik hlt
    rcases Nat.eq_or_lt_of_le hik with rfl | hgt
    · cases rest with
      | nil => simp at hlt
      | cons r rs =>
        cases o <;> cases r <;>
          simp [dispatchAux, betweenAttempts, isAttemptFor, List.dropWhile_cons,
            List.takeWhile_cons]
    · have hne : i ≠ k := by omega
      have hstep : betweenAttempts (dispatchAux i (o :: rest)) k =
          betweenAttempts (dispatchAux (i + 1) rest) k := by
        cases o <;>
          simp [dispatchAux, betweenAttempts, isAttemptFor, List.dropWhile_cons, hne]
      rw [hstep, ih (i + 1) k (by omega) (by simp at hlt ⊢; omega)]
      have hki : k - i = (k - (i + 1)) + 1 := by omega
      rw [hki, List.getD_cons_succ]

/-- C2 amended: the fixed 200 ms wait separates consecutive attempts exactly
when the earlier submission succeeded; after a failed submission the next
attempt starts with no delay (the awaited delay sits inside the `try`
block, after the success path). -/
theorem dispatch_delay_iff_success (outcomes : List Bool) (k : ℕ)
    (h : k + 1 < outcomes.length) :
    betweenAttempts (dispatchTrace outcomes) k =
      if outcomes.getD k false = true then [DispatchEvent.delay 200] else [] := by
  have := betweenAttempts_dispatchAux outcomes 0 k (Nat.zero_le k) (by omega)
  simpa [dispatchTrace] using this

/-- C2 amended, witness: in the two-order batch where the first submission
succeeds, exactly the 200 ms delay lies between the two attempts. -/
theorem dispatch_delay_iff_success_witness :
    0 + 1 < ([true, false] : List Bool).length ∧
    betweenAttempts (dispatchTrace [true, false]) 0 =
      if ([true, false] : List Bool).getD 0 false = true
        then [DispatchEvent.delay 200] else [] :=
  ⟨by decide, dispatch_delay_iff_success [true, false] 0 (by decide)⟩

/-- C3: on the grid input whose quantity is the non-numeric string "abc",
`validateGridInput` returns no error — `parseFloat` yields NaN, the
comparison `NaN < minQty` is false, and no `isNaN` guard exists on this
path (unlike `validateOrderInput`), so the claimed quantity rule is not
enforced. -/
theorem validateGridInput_accepts_nan_quantity :
    validateGridInput "BTCUSDT" "90000" "100000" "abc" = none := by
  simp [validateGridInput, parseFloat, ratOfRep, jsGe, jsLe, jsLt,
    show parseFloatRep "90000" = some (false, 90000, 0, 0) from by decide,
    show parseFloatRep "100000" = some (false, 100000, 0, 0) from by decide,
    show parseFloatRep "abc" = none from by decide,
    show countDecimals "90000" = 0 from by decide,
    show countDecimals "100000" = 0 from by decide,
    show countDecimals "abc" = 0 from by decide,
    show getSymbolRules "BTCUSDT" = ⟨1/1000, 1, 3⟩ from by rfl]
  norm_num

/-- C7: in live mode a missing credential field fails submit and cancel
with the credential error before any signing or request, whatever the
signer would do; in simulated mode the credentials are never consulted. -/
theorem credential_gate :
    (∀ (order : OrderRequest) (creds : ApiCredentials) (ts : ℕ)
        (sign : String → String → String),
      creds.apiKey = "" ∨ creds.apiSecret = "" →
      realPlaceOrder order creds ts sign = Except.error "API Credentials missing") ∧
    (∀ (symbol orderId : String) (creds : ApiCredentials) (ts : ℕ)
        (sign : String → String → String),
      creds.apiKey = "" ∨ creds.apiSecret = "" →
      realCancelOrder symbol orderId creds ts sign =
        Except.error "API Credentials missing") ∧
    (∀ (order : OrderRequest) (creds creds' : ApiCredentials) (randId now ts : ℕ)
        (sign sign' : String → String → String),
      placeOrder true order creds randId now ts sign =
        placeOrder true order creds' randId now ts sign') ∧
    (∀ (symbol orderId : String) (creds creds' : ApiCredentials) (randId now ts : ℕ)
        (sign sign' : String → String → String),
      cancelOrder true symbol orderId creds randId now ts sign =
        cancelOrder true symbol orderId creds' randId now ts sign') := by
  refine ⟨?_, ?_, ?_, ?_⟩
  · intro order creds ts sign h
    simp [realPlaceOrder, h]
  · intro symbol orderId creds ts sign h
    simp [realCancelOrder, h]
  · intro order creds creds' randId now ts sign sign'
    simp [placeOrder]
  · intro symbol orderId creds creds' randId now ts sign sign'
    simp [cancelOrder]

/-- C7 witness: with an empty API key, live submit and cancel both fail
with the credential error; in simulated mode empty and non-empty
credentials give the same result. -/
theorem credential_gate_witness :
    ((ApiCredentials.mk "" "secret").apiKey = "" ∨
      (ApiCredentials.mk "" "secret").apiSecret = "") ∧
    realPlaceOrder ⟨"BTCUSDT", OrderSide.BUY, OrderType.MARKET, "0.001", none, none, none⟩
        ⟨"", "secret"⟩ 1700000000000 (fun _ m => m) =
      Except.error "API Credentials missing" ∧
    realCancelOrder "BTCUSDT" "12345" ⟨"", "secret"⟩ 1700000000000 (fun _ m => m) =
      Except.error "API Credentials missing" ∧
    placeOrder true ⟨"BTCUSDT", OrderSide.BUY, OrderType.MARKET, "0.001", none, none, none⟩
        ⟨"", ""⟩ 7 9 11 (fun _ m => m) =
      placeOrder true ⟨"BTCUSDT", OrderSide.BUY, OrderType.MARKET, "0.001", none, none, none⟩
        ⟨"key", "secret"⟩ 7 9 11 (fun _ m => m) :=
  ⟨Or.inl rfl,
    credential_gate.1 _ ⟨"", "secret"⟩ _ _ (Or.inl rfl),
    credential_gate.2.1 _ _ ⟨"", "secret"⟩ _ _ (Or.inl rfl),
    credential_gate.2.2.1 _ ⟨"", ""⟩ ⟨"key", "secret"⟩ _ _ _ _ _⟩

/-- C8: the simulated submit path never fails: for every order request it
returns, after the fixed 800 ms artificial delay, status "NEW", zero
executed quantity, the randomly drawn numeric id, a synthetic client-order
id, and the symbol echoed upper-cased. -/
theorem mock_place_order_never_fails (order : OrderRequest) (randId now : ℕ) :
    mockPlaceOrderDelayMs = 800 ∧
    mockPlaceOrder order randId now =
      Except.ok
        { orderId := randId
          symbol := jsToUpper order.symbol
          status := "NEW"
          clientOrderId := "web_" ++ toString now
          price := jsOrElse order.price "0"
          avgPrice := "0.00000"
          origQty := order.quantity
          executedQty := "0"
          cumQuote := "0"
          timeInForce := "GTC"
          type := order.type
          side := order.side
          stopPrice := jsOrElse order.stopPrice "0"
          workingType := "CONTRACT_PRICE"
          priceProtect := false
          origType := order.type
          updateTime := now } :=
  ⟨rfl, rfl⟩

/-- C10: the validator's verdict on a MARKET order is identical whatever
the price and stopPrice fields hold — those fields are examined only for
LIMIT and STOP_LIMIT types. -/
theorem validate_market_ignores_price (o : OrderRequest) (p sp : Option String)
    (h : o.type = OrderType.MARKET) :
    validateOrderInput { o with price := p, stopPrice := sp } = validateOrderInput o := by
  simp [validateOrderInput, h]

/-- C10 witness: a MARKET order with malformed price and stopPrice
validates exactly as the same order with no price fields at all. -/
theorem validate_market_ignores_price_witness :
    (OrderRequest.mk "BTCUSDT" OrderSide.BUY OrderType.MARKET "0.001" none none none).type
        = OrderType.MARKET ∧
    validateOrderInput ⟨"BTCUSDT", OrderSide.BUY, OrderType.MARKET, "0.001",
        some "not-a-price", some "-42", none⟩ =
      validateOrderInput ⟨"BTCUSDT", OrderSide.BUY, OrderType.MARKET, "0.001",
        none, none, none⟩ :=
  ⟨rfl, validate_market_ignores_price
    ⟨"BTCUSDT", OrderSide.BUY, OrderType.MARKET, "0.001", none, none, none⟩
    (some "not-a-price") (some "-42") rfl⟩

theorem stream_inactive_absorbing (evs : List StreamEvent) :
    ∀ s : StreamSession, s.active = false → s.timer = none →
    (evs.foldl streamStep s).active = false ∧
    (evs.foldl streamStep s).timer = none ∧
    (evs.foldl streamStep s).attempts = s.attempts := by
  induction evs with
  | nil => intro s ha ht; exact ⟨ha, ht, rfl⟩
  | cons ev rest ih =>
    intro s ha ht
    have hstep : (streamStep s ev).active = false ∧ (streamStep s ev).timer = none ∧
        (streamStep s ev).attempts = s.attempts := by
      cases ev <;> simp [streamStep, connect, ha, ht]
    have := ih (streamStep s ev) hstep.1 hstep.2.1
    exact ⟨this.1, this.2.1, this.2.2.trans hstep.2.2⟩

/-- C9: while a session is active an unexpected close always schedules the
fixed-delay reconnect; once explicit unsubscribe clears the active flag the
pending timer is cancelled and no later sequence of closes or timer firings
ever makes another connection attempt. -/
theorem stream_unsubscribe_permanent :
    (∀ s : StreamSession, s.active = true →
      (streamStep s StreamEvent.socketClose).timer = some RECONNECT_DELAY) ∧
    (∀ (s : StreamSession) (evs : List StreamEvent),
      (streamStep s StreamEvent.unsubscribe).timer = none ∧
      (evs.foldl streamStep (streamStep s StreamEvent.unsubscribe)).attempts =
        s.attempts ∧
      (evs.foldl streamStep (streamStep s StreamEvent.unsubscribe)).active = false) := by
  constructor
  · intro s ha
    simp [streamStep, ha]
  · intro s evs
    have h := stream_inactive_absorbing evs (streamStep s StreamEvent.unsubscribe)
      (by simp [streamStep]) (by simp [streamStep])
    exact ⟨rfl, h.2.2, h.1⟩

/-- C9 witness: a live session with an open socket schedules the 3000 ms
reconnect on close; an unsubscribed one makes no further attempts across a
later close and timer firing. -/
theorem stream_unsubscribe_permanent_witness :
    (StreamSession.mk true none true 1).active = true ∧
    (streamStep ⟨true, none, true, 1⟩ StreamEvent.socketClose).timer =
      some RECONNECT_DELAY ∧
    (streamStep ⟨true, some 3000, true, 1⟩ StreamEvent.unsubscribe).timer = none ∧
    (([StreamEvent.socketClose, StreamEvent.timerFire].foldl streamStep
        (streamStep ⟨true, some 3000, true, 1⟩ StreamEvent.unsubscribe)).attempts = 1) :=
  ⟨rfl, stream_unsubscribe_permanent.1 ⟨true, none, true, 1⟩ rfl,
    (stream_unsubscribe_permanent.2 ⟨true, some 3000, true, 1⟩
      [StreamEvent.socketClose, StreamEvent.timerFire]).1,
    (stream_unsubscribe_permanent.2 ⟨true, some 3000, true, 1⟩
      [StreamEvent.socketClose, StreamEvent.timerFire]).2.1⟩

/-- C6: the message handed to the signer is the `key=value` pairs joined by
`&` in assembly insertion order — symbol, side, quantity, timestamp,
recvWindow, then the type-dependent parameters — and the issued request's
query is that message with `&signature=<sign(secret, message)>` appended
last. -/
theorem signed_query_insertion_order (o : OrderRequest) (creds : ApiCredentials)
    (ts : ℕ) (sign : String → String → String)
    (hk : creds.apiKey ≠ "") (hs : creds.apiSecret ≠ "") :
    (o.type = OrderType.MARKET →
      realPlaceOrder o creds ts sign =
        Except.ok
          { method := "POST", path := "/fapi/v1/order"
            query :=
              toQueryString
                [ ("symbol", jsToUpper o.symbol), ("side", sideString o.side)
                , ("quantity", o.quantity), ("timestamp", toString ts)
                , ("recvWindow", "5000"), ("type", "MARKET") ] ++
              "&signature=" ++
              sign creds.apiSecret
                (toQueryString
                  [ ("symbol", jsToUpper o.symbol), ("side", sideString o.side)
                  , ("quantity", o.quantity), ("timestamp", toString ts)
                  , ("recvWindow", "5000"), ("type", "MARKET") ])
            apiKeyHeader := creds.apiKey }) ∧
    (∀ p : String, o.type = OrderType.LIMIT → o.price = some p → p ≠ "" →
      realPlaceOrder o creds ts sign =
        Except.ok
          { method := "POST", path := "/fapi/v1/order"
            query :=
              toQueryString
                [ ("symbol", jsToUpper o.symbol), ("side", sideString o.side)
                , ("quantity", o.quantity), ("timestamp", toString ts)
                , ("recvWindow", "5000"), ("type", "LIMIT"), ("price", p)
                , ("timeInForce", "GTC") ] ++
              "&signature=" ++
              sign creds.apiSecret
                (toQueryString
                  [ ("symbol", jsToUpper o.symbol), ("side", sideString o.side)
                  , ("quantity", o.quantity), ("timestamp", toString ts)
                  , ("recvWindow", "5000"), ("type", "LIMIT"), ("price", p)
                  , ("timeInForce", "GTC") ])
            apiKeyHeader := creds.apiKey }) ∧
    (∀ p sp : String, o.type = OrderType.STOP_LIMIT →
      o.price = some p → p ≠ "" → o.stopPrice = some sp → sp ≠ "" →
      realPlaceOrder o creds ts sign =
        Except.ok
          { method := "POST", path := "/fapi/v1/order"
            query :=
              toQueryString
                [ ("symbol", jsToUpper o.symbol), ("side", sideString o.side)
                , ("quantity", o.quantity), ("timestamp", toString ts)
                , ("recvWindow", "5000"), ("type", "STOP"), ("price", p)
                , ("stopPrice", sp), ("timeInForce", "GTC") ] ++
              "&signature=" ++
              sign creds.apiSecret
                (toQueryString
                  [ ("symbol", jsToUpper o.symbol), ("side", sideString o.side)
                  , ("quantity", o.quantity), ("timestamp", toString ts)
                  , ("recvWindow", "5000"), ("type", "STOP"), ("price", p)
                  , ("stopPrice", sp), ("timeInForce", "GTC") ])
            apiKeyHeader := creds.apiKey }) := by
  refine ⟨?_, ?_, ?_⟩
  · intro hty
    simp [realPlaceOrder, orderTypeParams, baseOrderParams, hty, hk, hs, jsOrElse]
  · intro p hty hp hpne
    simp [realPlaceOrder, orderTypeParams, baseOrderParams, hty, hp, hpne, hk, hs, jsOrElse]
  · intro p sp hty hp hpne hsp hspne
    simp [realPlaceOrder, orderTypeParams, baseOrderParams, hty, hp, hpne, hsp, hspne,
      hk, hs, jsOrElse]

/-- C6 witness: a concrete LIMIT order produces the fully spelled-out
query string — insertion order, not alphabetical — with the signature as
the final parameter. -/
theorem signed_query_insertion_order_witness :
    ("K" : String) ≠ "" ∧ ("S" : String) ≠ "" ∧
    realPlaceOrder
        ⟨"btcusdt", OrderSide.BUY, OrderType.LIMIT, "0.001", some "90000.0", none, some "GTC"⟩
        ⟨"K", "S"⟩ 1700000000000 (fun _ _ => "SIG") =
      Except.ok
        { method := "POST", path := "/fapi/v1/order"
          query := "symbol=BTCUSDT&side=BUY&quantity=0.001&timestamp=1700000000000&recvWindow=5000&type=LIMIT&price=90000.0&timeInForce=GTC&signature=SIG"
          apiKeyHeader := "K" } := by
  refine ⟨by decide, by decide, ?_⟩
  have h := (signed_query_insertion_order
      ⟨"btcusdt", OrderSide.BUY, OrderType.LIMIT, "0.001", some "90000.0", none, some "GTC"⟩
      ⟨"K", "S"⟩ 1700000000000 (fun _ _ => "SIG")
      (by decide) (by decide)).2.1 "90000.0" rfl rfl (by decide)
  rw [h]
  rfl

theorem le_roundToDec {d : ℕ} {a : ℤ} {x : ℚ} (h : (a : ℚ) / 10 ^ d ≤ x) :
    (a : ℚ) / 10 ^ d ≤ roundToDec d x := by
  have h10 : (0:ℚ) < 10 ^ d := by positivity
  have hx : (a : ℚ) ≤ x * 10 ^ d := (div_le_iff₀ h10).1 h
  have hfloor : a ≤ ⌊x * 10 ^ d + 1 / 2⌋ := Int.le_floor.2 (by linarith)
  rw [roundToDec]
  gcongr

theorem roundToDec_le {d : ℕ} {b : ℤ} {x : ℚ} (h : x ≤ (b : ℚ) / 10 ^ d) :
    roundToDec d x ≤ (b : ℚ) / 10 ^ d := by
  have h10 : (0:ℚ) < 10 ^ d := by positivity
  have hx : x * 10 ^ d ≤ (b : ℚ) := (le_div_iff₀ h10).1 h
  have hfloor : ⌊x * 10 ^ d + 1 / 2⌋ ≤ b := by
    have h1 : ⌊x * 10 ^ d + 1 / 2⌋ ≤ ⌊(1 : ℚ) / 2 + (b : ℚ)⌋ :=
      Int.floor_le_floor (by linarith)
    rwa [Int.floor_add_int, show ⌊(1:ℚ)/2⌋ = 0 from by norm_num, zero_add] at h1
  rw [roundToDec]
  gcongr

theorem roundToDec_mono {d : ℕ} {x y : ℚ} (h : x ≤ y) :
    roundToDec d x ≤ roundToDec d y := by
  have h10 : (0:ℚ) < 10 ^ d := by positivity
  have hfloor : ⌊x * 10 ^ d + 1 / 2⌋ ≤ ⌊y * 10 ^ d + 1 / 2⌋ :=
    Int.floor_le_floor (by nlinarith)
  rw [roundToDec, roundToDec]
  gcongr

/-- C1 amended: for every valid grid input (minPrice < maxPrice as numbers,
levelCount ≥ 2, minPrice and maxPrice lying on the symbol's price-precision
lattice as grid validation guarantees), the generator emits at most N
orders — exactly N minus the raw levels within one precision unit of the
reference — every output price lies in [minPrice, maxPrice], and the output
prices are nondecreasing (adjacent formatted prices can coincide when the
step is below one precision unit, so strict increase does not hold in
general). -/
theorem generateGrid_bounds (minP maxP : ℚ) (count : ℕ) (ref : ℚ) (qty symbol : String)
    (hlt : minP < maxP) (hc : 2 ≤ count)
    (hmin : ∃ a : ℤ, minP = (a : ℚ) / 10 ^ (getSymbolRules symbol).priceDecimals)
    (hmax : ∃ b : ℤ, maxP = (b : ℚ) / 10 ^ (getSymbolRules symbol).priceDecimals) :
    (generateGrid minP maxP count ref qty symbol).length ≤ count ∧
    (generateGrid minP maxP count ref qty symbol).length =
      count - droppedLevels minP maxP count ref (getSymbolRules symbol).priceDecimals ∧
    (∀ o ∈ generateGrid minP maxP count ref qty symbol,
      minP ≤ o.price ∧ o.price ≤ maxP) ∧
    (generateGrid minP maxP count ref qty symbol).Pairwise
      (fun o o' => o.price ≤ o'.price) := by
  obtain ⟨a, ha⟩ := hmin
  obtain ⟨b, hb⟩ := hmax
  set d := (getSymbolRules symbol).priceDecimals with hd
  have hcq : (1:ℚ) ≤ (count:ℚ) - 1 := by
    have : (2:ℚ) ≤ (count:ℚ) := by exact_mod_cast hc
    linarith
  have hstep : 0 < (maxP - minP) / ((count:ℚ) - 1) := div_pos (by linarith) (by linarith)
  have hlevel_lb : ∀ i : ℕ, minP ≤ gridLevel minP maxP count i := by
    intro i
    have h0 : (0:ℚ) ≤ (i:ℚ) * ((maxP - minP) / ((count:ℚ) - 1)) :=
      mul_nonneg (Nat.cast_nonneg i) (le_of_lt hstep)
    simp only [gridLevel]
    linarith
  have hlevel_ub : ∀ i : ℕ, i < count → gridLevel minP maxP count i ≤ maxP := by
    intro i hi
    have hi' : (i:ℚ) ≤ (count:ℚ) - 1 := by
      have : (i:ℚ) + 1 ≤ (count:ℚ) := by exact_mod_cast hi
      linarith
    have h1 : (i:ℚ) * ((maxP - minP) / ((count:ℚ) - 1)) ≤
        ((count:ℚ) - 1) * ((maxP - minP) / ((count:ℚ) - 1)) :=
      mul_le_mul_of_nonneg_right hi' (le_of_lt hstep)
    have h2 : ((count:ℚ) - 1) * ((maxP - minP) / ((count:ℚ) - 1)) = maxP - minP := by
      field_simp
    simp only [gridLevel]
    linarith [h2 ▸ h1]
  have hmono : ∀ i j : ℕ, i ≤ j →
      gridLevel minP maxP count i ≤ gridLevel minP maxP count j := by
    intro i j hij
    have hij' : (i:ℚ) ≤ (j:ℚ) := by exact_mod_cast hij
    have := mul_le_mul_of_nonneg_right hij' (le_of_lt hstep)
    simp only [gridLevel]
    linarith
  have hlen : (generateGrid minP maxP count ref qty symbol).length =
      count - droppedLevels minP maxP count ref d := by
    have hsum := length_filter_add_length_filter_not (List.range count)
      (fun i => (|gridLevel minP maxP count i - ref| < 1 / 10 ^ d : Bool))
    simp only [List.length_range] at hsum
    simp only [generateGrid, List.length_map, droppedLevels, ← hd]
    omega
  refine ⟨?_, hlen, ?_, ?_⟩
  · rw [hlen]; omega
  · intro o ho
    simp only [generateGrid, List.mem_map, List.mem_filter, List.mem_range] at ho
    obtain ⟨i, ⟨hi, _⟩, rfl⟩ := ho
    refine ⟨?_, ?_⟩
    · simp only [← hd]
      rw [ha]
      exact le_roundToDec (ha ▸ hlevel_lb i)
    · simp only [← hd]
      rw [hb]
      exact roundToDec_le (hb ▸ hlevel_ub i hi)
  · simp only [generateGrid]
    have hpf : (((List.range count).filter fun i =>
        !(|gridLevel minP maxP count i - ref| < 1 / 10 ^ d : Bool))).Pairwise (· < ·) :=
      List.Pairwise.sublist (List.filter_sublist _) (List.pairwise_lt_range count)
    exact hpf.map _ (fun i j hij => roundToDec_mono (hmono i j (le_of_lt hij)))

/-- C1 amended, witness: the bounds instantiated on the spec's own example
grid (90000..100000, five levels, reference 95000, BTCUSDT precision). -/
theorem generateGrid_bounds_witness :
    (90000 : ℚ) < 100000 ∧ 2 ≤ 5 ∧
    (∃ a : ℤ, (90000 : ℚ) = (a : ℚ) / 10 ^ (getSymbolRules "BTCUSDT").priceDecimals) ∧
    (∃ b : ℤ, (100000 : ℚ) = (b : ℚ) / 10 ^ (getSymbolRules "BTCUSDT").priceDecimals) ∧
    ((generateGrid 90000 100000 5 95000 "0.001" "BTCUSDT").length ≤ 5 ∧
     (generateGrid 90000 100000 5 95000 "0.001" "BTCUSDT").length =
       5 - droppedLevels 90000 100000 5 95000 (getSymbolRules "BTCUSDT").priceDecimals ∧
     (∀ o ∈ generateGrid 90000 100000 5 95000 "0.001" "BTCUSDT",
       (90000 : ℚ) ≤ o.price ∧ o.price ≤ 100000) ∧
     (generateGrid 90000 100000 5 95000 "0.001" "BTCUSDT").Pairwise
       (fun o o' => o.price ≤ o'.price)) :=
  ⟨by norm_num, by decide,
    ⟨900000, by norm_num [show (getSymbolRules "BTCUSDT").priceDecimals = 1 from rfl]⟩,
    ⟨1000000, by norm_num [show (getSymbolRules "BTCUSDT").priceDecimals = 1 from rfl]⟩,
    generateGrid_bounds 90000 100000 5 95000 "0.001" "BTCUSDT" (by norm_num) (by decide)
      ⟨900000, by norm_num [show (getSymbolRules "BTCUSDT").priceDecimals = 1 from rfl]⟩
      ⟨1000000, by norm_num [show (getSymbolRules "BTCUSDT").priceDecimals = 1 from rfl]⟩⟩

/-- C1 counterexample: the valid BTCUSDT grid 100..100.2 with five levels
(step 0.05, below the 0.1 precision unit) formats adjacent levels to equal
prices, so the output is not strictly increasing. -/
theorem generateGrid_not_strictly_increasing :
    (100 : ℚ) < 501/5 ∧ 2 ≤ 5 ∧
    (∃ a : ℤ, (100 : ℚ) = (a : ℚ) / 10 ^ (getSymbolRules "BTCUSDT").priceDecimals) ∧
    (∃ b : ℤ, (501/5 : ℚ) = (b : ℚ) / 10 ^ (getSymbolRules "BTCUSDT").priceDecimals) ∧
    ¬ (generateGrid 100 (501/5) 5 500 "0.001" "BTCUSDT").Pairwise
        (fun o o' => o.price < o'.price) := by
  refine ⟨by norm_num, by decide,
    ⟨1000, by norm_num [show (getSymbolRules "BTCUSDT").priceDecimals = 1 from rfl]⟩,
    ⟨1002, by norm_num [show (getSymbolRules "BTCUSDT").priceDecimals = 1 from rfl]⟩, ?_⟩
  intro h
  have heq : generateGrid 100 (501/5) 5 500 "0.001" "BTCUSDT" =
      [ ⟨"BTCUSDT", OrderSide.BUY, OrderType.LIMIT, "0.001", 100, "GTC"⟩
      , ⟨"BTCUSDT", OrderSide.BUY, OrderType.LIMIT, "0.001", 1001/10, "GTC"⟩
      , ⟨"BTCUSDT", OrderSide.BUY, OrderType.LIMIT, "0.001", 1001/10, "GTC"⟩
      , ⟨"BTCUSDT", OrderSide.BUY, OrderType.LIMIT, "0.001", 501/5, "GTC"⟩
      , ⟨"BTCUSDT", OrderSide.BUY, OrderType.LIMIT, "0.001", 501/5, "GTC"⟩ ] := by
    simp only [generateGrid, gridLevel,
      show getSymbolRules "BTCUSDT" = ⟨1/1000, 1, 3⟩ from by rfl,
      show List.range 5 = [0, 1, 2, 3, 4] from by decide,
      List.filter_cons, List.filter_nil]
    norm_num [roundToDec, abs_of_nonneg]
  rw [heq] at h
  simp [List.pairwise_cons] at h

/-- C5: the spec's worked example — 90000..100000, five levels, reference
95000, BTCUSDT precision 1 — yields exactly four orders in ascending order,
BUY at 90000 and 92500, SELL at 97500 and 100000; the raw level 95000
coincides with the reference and is dropped (exactly one dropped level). -/
theorem generateGrid_example :
    generateGrid 90000 100000 5 95000 "0.001" "BTCUSDT" =
      [ ⟨"BTCUSDT", OrderSide.BUY, OrderType.LIMIT, "0.001", 90000, "GTC"⟩
      , ⟨"BTCUSDT", OrderSide.BUY, OrderType.LIMIT, "0.001", 92500, "GTC"⟩
      , ⟨"BTCUSDT", OrderSide.SELL, OrderType.LIMIT, "0.001", 97500, "GTC"⟩
      , ⟨"BTCUSDT", OrderSide.SELL, OrderType.LIMIT, "0.001", 100000, "GTC"⟩ ] ∧
    droppedLevels 90000 100000 5 95000 1 = 1 := by
  constructor
  · simp only [generateGrid, gridLevel,
      show getSymbolRules "BTCUSDT" = ⟨1/1000, 1, 3⟩ from by rfl,
      show List.range 5 = [0, 1, 2, 3, 4] from by decide,
      List.filter_cons, List.filter_nil]
    norm_num [roundToDec, abs_of_nonneg]
  · simp only [droppedLevels, gridLevel,
      show List.range 5 = [0, 1, 2, 3, 4] from by decide,
      List.filter_cons, List.filter_nil]
    norm_num
